import Mathlib

/-!
Verification of the instrumentation and fault-injection layer of the
ns3-routing repository (src/topologia1.cc, src/topologia2.cc,
src/topologia3.cc) against its natural-language specification.

The three scenario files share verbatim copies of the classes
`RoutingTableTracker` and `NetworkConvergenceTracker` and of the link
fault-injection helpers `TearDownLink` / `UpLink`; they differ in their
`PrintFlowStats` reporting functions, which are embedded here separately
(`printFlowStats1` for topologia1.cc, `printFlowStats2` for topologia2.cc,
`printFlowStats3` for topologia3.cc).

Modelling conventions:
  * ns-3 `Time` (a signed 64-bit count of nanoseconds, far from overflow in
    these 300 s runs) is modelled as `ℚ`.
  * the routing-table text returned by `PrintRoutingTable` is modelled as a
    `List Char`.
  * IEEE doubles are modelled as `ℚ`; a division whose divisor is zero,
    which in the C++ code produces NaN or Inf, is modelled by `Option ℚ`
    returning `none` (see `qdiv`).
  * the external engine (scheduler, routing protocols, devices) is not part
    of the core: a sampler tick receives the freshly printed routing-table
    text as an argument, and the sequence of ticks a sampler experiences is
    a list of (time, raw text) pairs.
-/

/-- Virtual simulated time, in seconds. -/
abbrev Time := ℚ

/-- Raw text produced by `PrintRoutingTable`, as a list of characters. -/
abbrev RawTable := List Char

/-- State of `RoutingTableTracker` (identical in all three topologia files):
the tracking flag, the stored routing-table text and the virtual time of the
last observed change. The `m_node` pointer is external and not part of the
observable state. -/
structure RoutingTableTracker where
  m_tracking : Bool
  m_lastRoutingTable : List Char
  m_lastChangeTime : Time
deriving DecidableEq, Repr

/-- The suffix of the text after its first newline character, mirroring
`routingTable.find("\n")` followed by `substr(pos + 1)`; `none` when the text
contains no newline (`find` returned `npos`). -/
def findAfterNewline : List Char → Option (List Char)
  | [] => none
  | c :: cs => if c = '\n' then some cs else findAfterNewline cs

/-- Embeds `RoutingTableTracker::GetRoutingTable`: after printing the table,
the code removes the first line (which contains the current time):
`pos = routingTable.find("\n"); if (pos != npos) routingTable = routingTable.substr(pos + 1);`.
If the text contains no newline it is returned unchanged. -/
def GetRoutingTable (raw : List Char) : List Char :=
  match findAfterNewline raw with
  | some rest => rest
  | none => raw

/-- Embeds `RoutingTableTracker::Start`: sets `m_tracking = true`,
`m_lastChangeTime = Simulator::Now()` and seeds `m_lastRoutingTable` with the
current capture (first line stripped). The re-arming `Schedule` call is
external. -/
def trackerStart (now : Time) (raw : RawTable) : RoutingTableTracker :=
  { m_tracking := true
  , m_lastRoutingTable := GetRoutingTable raw
  , m_lastChangeTime := now }

/-- Embeds `RoutingTableTracker::Stop`: only clears the tracking flag. -/
def trackerStop (s : RoutingTableTracker) : RoutingTableTracker :=
  { s with m_tracking := false }

/-- Embeds `RoutingTableTracker::CheckRoutingTable`, one fired tick: if the
flag is down, return immediately; otherwise capture the current table (first
line stripped by `GetRoutingTable`) and, only if it differs from the stored
one, store it and set `m_lastChangeTime = Simulator::Now()`. The self
re-scheduling is external. -/
def checkRoutingTable (s : RoutingTableTracker) (now : Time) (raw : RawTable) :
    RoutingTableTracker :=
  if s.m_tracking = false then s
  else if GetRoutingTable raw ≠ s.m_lastRoutingTable then
    { s with m_lastRoutingTable := GetRoutingTable raw, m_lastChangeTime := now }
  else s

/-- A sequence of fired ticks: each element carries the virtual time at which
the tick fires and the raw routing-table text the node would print then. -/
def runTicks (s : RoutingTableTracker) (ticks : List (Time × RawTable)) :
    RoutingTableTracker :=
  ticks.foldl (fun st p => checkRoutingTable st p.1 p.2) s

/-- State of `NetworkConvergenceTracker`: one `RoutingTableTracker` per
monitored router, plus the window start time recorded by `Start`. -/
structure NetworkConvergenceTracker where
  m_trackers : List RoutingTableTracker
  m_startTime : Time
deriving DecidableEq, Repr

/-- Embeds `NetworkConvergenceTracker::Start`: records
`m_startTime = Simulator::Now()` and starts every per-node tracker; each
router contributes the raw table text it prints at that instant. -/
def networkStart (now : Time) (raws : List RawTable) : NetworkConvergenceTracker :=
  { m_trackers := raws.map (trackerStart now), m_startTime := now }

/-- Embeds `NetworkConvergenceTracker::Stop`: stops every tracker; the start
time is untouched. -/
def networkStop (T : NetworkConvergenceTracker) : NetworkConvergenceTracker :=
  { T with m_trackers := T.m_trackers.map trackerStop }

/-- The loop body of `GetNetworkConvergenceTime`:
`if (convergenceTime > maxTime) { maxTime = convergenceTime; }` folded over
the trackers, starting from `Seconds (0)`. -/
def foldMaxChange (init : Time) (l : List RoutingTableTracker) : Time :=
  l.foldl
    (fun maxTime tracker =>
      if tracker.m_lastChangeTime > maxTime then tracker.m_lastChangeTime else maxTime)
    init

/-- Embeds `NetworkConvergenceTracker::GetNetworkConvergenceTime`: the
maximum of the trackers' last-change times (folded from `Seconds (0)`) minus
`m_startTime`. -/
def getNetworkConvergenceTime (T : NetworkConvergenceTracker) : Time :=
  foldMaxChange 0 T.m_trackers - T.m_startTime

/-! ## Flow statistics (FlowStatsAggregator) -/

/-- The `SIMULATION_TIME` macro, `300.0` seconds, shared by all three files. -/
def SIMULATION_TIME : ℚ := 300

/-- A read-only per-flow counter record from the external flow monitor
(`FlowMonitor::FlowStats`); packet and byte counters are unsigned integers,
`delaySum` and `jitterSum` are times read out in seconds. -/
structure FlowStats where
  txPackets : Nat
  rxPackets : Nat
  lostPackets : Nat
  txBytes : Nat
  rxBytes : Nat
  delaySum : ℚ
  jitterSum : ℚ
deriving DecidableEq, Repr

/-- The derived metrics one per-flow report block prints. -/
structure FlowMetrics where
  lossRatio : ℚ
  avgPacketSize : ℚ
  throughputMbps : ℚ
  avgDelay : ℚ
  avgJitter : ℚ
deriving DecidableEq, Repr

/-- Embeds the metric expressions of `PrintFlowStats` in topologia1.cc
(lines 212-216), which zero-guard every division with a ternary:
`(txPackets ? lost/tx : 0)`, `(txPackets ? txBytes/tx : 0)`,
`rxBytes * 8.0 / SIMULATION_TIME / 1000 / 1000`,
`(rxPackets ? delaySum/rx : 0)`, `(rxPackets > 1 ? jitterSum/(rx-1) : 0)`.
The `now` argument is `Simulator::Now()`, printed in the report header but
used by no metric. -/
def printFlowStats1 (now : Time) (f : FlowStats) : FlowMetrics :=
  { lossRatio := if f.txPackets ≠ 0 then (f.lostPackets : ℚ) / f.txPackets else 0
  , avgPacketSize := if f.txPackets ≠ 0 then (f.txBytes : ℚ) / f.txPackets else 0
  , throughputMbps := (f.rxBytes : ℚ) * 8 / SIMULATION_TIME / 1000 / 1000
  , avgDelay := if f.rxPackets ≠ 0 then f.delaySum / f.rxPackets else 0
  , avgJitter := if 1 < f.rxPackets then f.jitterSum / ((f.rxPackets : ℚ) - 1) else 0 }

/-- Checked rational division standing for a C++ `double` division: `none`
models the NaN or Inf produced when the divisor is zero. -/
def qdiv (a b : ℚ) : Option ℚ :=
  if b = 0 then none else some (a / b)

/-- 2^32, the modulus of the `uint32_t` arithmetic on `rxPackets`. -/
def UINT32_MOD : Nat := 4294967296

/-- The metrics of one flow block of topologia2.cc, where every division is
a plain `Option ℚ` (NaN/Inf as `none`). -/
structure FlowMetrics2 where
  lossRatio : Option ℚ
  avgPacketSize : Option ℚ
  throughputMbps : ℚ
  avgDelay : Option ℚ
  avgJitter : Option ℚ
deriving DecidableEq, Repr

/-- Embeds the metric expressions of `PrintFlowStats` in topologia2.cc
(lines 211-215), which perform the same divisions WITHOUT any zero-guard:
`(double)lostPackets / txPackets`, `(double)txBytes / txPackets`,
`rxBytes * 8.0 / SIMULATION_TIME / 1000 / 1000`,
`delaySum.GetSeconds() / rxPackets`,
`jitterSum.GetSeconds() / (rxPackets - 1)`.
`rxPackets - 1` is computed in `uint32_t` arithmetic, so `rxPackets = 0`
wraps to `2^32 - 1`; a zero divisor yields `none` (NaN or Inf). -/
def printFlowStats2 (f : FlowStats) : FlowMetrics2 :=
  { lossRatio := qdiv f.lostPackets f.txPackets
  , avgPacketSize := qdiv f.txBytes f.txPackets
  , throughputMbps := (f.rxBytes : ℚ) * 8 / SIMULATION_TIME / 1000 / 1000
  , avgDelay := qdiv f.delaySum f.rxPackets
  , avgJitter := qdiv f.jitterSum (((f.rxPackets + (UINT32_MOD - 1)) % UINT32_MOD : Nat) : ℚ) }

/-- The running totals of the aggregation loop in topologia3.cc:
`totalTxPackets, totalRxPackets, totalLostPackets, totalTxBytes,
totalRxBytes, totalDelaySum, totalJitterSum, totalFlows`. -/
structure AggregateTotals where
  totalTxPackets : Nat
  totalRxPackets : Nat
  totalLostPackets : Nat
  totalTxBytes : Nat
  totalRxBytes : Nat
  totalDelaySum : ℚ
  totalJitterSum : ℚ
  totalFlows : Nat
deriving DecidableEq, Repr

/-- One iteration of the aggregation loop of topologia3.cc (lines 212-221);
note `totalJitterSum += rxPackets > 1 ? jitterSum.GetSeconds() : 0`. -/
def accumulateFlow (acc : AggregateTotals) (f : FlowStats) : AggregateTotals :=
  { totalTxPackets := acc.totalTxPackets + f.txPackets
  , totalRxPackets := acc.totalRxPackets + f.rxPackets
  , totalLostPackets := acc.totalLostPackets + f.lostPackets
  , totalTxBytes := acc.totalTxBytes + f.txBytes
  , totalRxBytes := acc.totalRxBytes + f.rxBytes
  , totalDelaySum := acc.totalDelaySum + f.delaySum
  , totalJitterSum := acc.totalJitterSum + (if 1 < f.rxPackets then f.jitterSum else 0)
  , totalFlows := acc.totalFlows + 1 }

/-- The totals after the whole loop, starting from all-zero accumulators. -/
def aggregateStats (fs : List FlowStats) : AggregateTotals :=
  fs.foldl accumulateFlow ⟨0, 0, 0, 0, 0, 0, 0, 0⟩

/-- Embeds `PrintFlowStats` of topologia3.cc (lines 207-235): sum the
counters over all flows, then, when `totalFlows > 0`, print the guarded
metric formulas applied to the totals (`none` models the
"Nenhum fluxo detectado" branch, which prints no metrics). -/
def printFlowStats3 (now : Time) (fs : List FlowStats) : Option FlowMetrics :=
  let tot := aggregateStats fs
  if 0 < tot.totalFlows then
    some
      { lossRatio :=
          if tot.totalTxPackets ≠ 0 then (tot.totalLostPackets : ℚ) / tot.totalTxPackets else 0
      , avgPacketSize :=
          if tot.totalTxPackets ≠ 0 then (tot.totalTxBytes : ℚ) / tot.totalTxPackets else 0
      , throughputMbps := (tot.totalRxBytes : ℚ) * 8 / SIMULATION_TIME / 1000 / 1000
      , avgDelay :=
          if tot.totalRxPackets ≠ 0 then tot.totalDelaySum / tot.totalRxPackets else 0
      , avgJitter :=
          if 1 < tot.totalRxPackets then tot.totalJitterSum / ((tot.totalRxPackets : ℚ) - 1)
          else 0 }
  else none

/-! ## Link registry and fault injection -/

/-- The global `nodeInterfaceMap` of topologia1.cc:
`std::map<std::pair<Ptr<Node>, Ptr<Node>>, uint32_t>`, modelled as an
association list with first-match lookup; node handles are numbered in
creation order. -/
abbrev InterfaceMap := List ((Nat × Nat) × Nat)

/-- Lookup in the ordered-pair map (`std::map::find`): `none` when the pair
was never registered. First match wins, which together with `mapInsert`
implements the overwrite semantics of `map[key] = value`. -/
def mapFind : InterfaceMap → Nat × Nat → Option Nat
  | [], _ => none
  | e :: m, k => if e.1 = k then some e.2 else mapFind m k

/-- The assignment `nodeInterfaceMap[key] = value`: with first-match lookup,
consing implements insert-or-overwrite. -/
def mapInsert (m : InterfaceMap) (k : Nat × Nat) (v : Nat) : InterfaceMap :=
  (k, v) :: m

/-- Embeds the registry update of `ConfigureNetworkLink` (topologia1.cc
lines 240-241):
`nodeInterfaceMap[{node1, node2}] = interface of node1 for its device;`
`nodeInterfaceMap[{node2, node1}] = interface of node2 for its device;`
`interface1` / `interface2` are the indices `GetInterfaceForDevice` resolves
on each side. The preceding validity guard (null node or empty device
container logs an error and leaves the map untouched) is outside this pure
registry step, which is only reached with valid arguments. -/
def ConfigureNetworkLink (m : InterfaceMap) (node1 node2 interface1 interface2 : Nat) :
    InterfaceMap :=
  mapInsert (mapInsert m (node1, node2) interface1) (node2, node1) interface2

/-- Administrative up/down state of every (node, interface) pair. -/
abbrev IfaceState := Nat × Nat → Bool

/-- `Ipv4::SetDown` / `Ipv4::SetUp` on one interface of one node. -/
def setIface (st : IfaceState) (node iface : Nat) (up : Bool) : IfaceState :=
  fun k => if k = (node, iface) then up else st k

/-- A `NetDevice` together with the interface index
`GetInterfaceForDevice` resolves for it on its node. -/
structure NetDeviceM where
  node : Nat
  iface : Nat
deriving DecidableEq, Repr

/-- Embeds `TearDownLink` (topologia1.cc lines 167-176): take the two
devices of the container, resolve each one's interface on its own node, and
set both down. The body is straight-line: it consults no registry and has
no error branch. -/
def TearDownLink (st : IfaceState) (d1 d2 : NetDeviceM) : IfaceState :=
  setIface (setIface st d1.node d1.iface false) d2.node d2.iface false

/-- Embeds `UpLink` (topologia1.cc lines 183-192), the exact mirror of
`TearDownLink` with `SetUp`. -/
def UpLink (st : IfaceState) (d1 d2 : NetDeviceM) : IfaceState :=
  setIface (setIface st d1.node d1.iface true) d2.node d2.iface true

/-- The registry built by the four `ConfigureNetworkLink` calls of
topologia1.cc's `main` (lines 307-310), with nodes numbered in creation
order (T = 0, Router1 = 1, Router2 = 2, Router3 = 3, R = 4) and the
interface indices ns-3 resolves for each point-to-point device (loopback is
interface 0; each subsequent device gets the next index on its node). -/
def topologia1NodeInterfaceMap : InterfaceMap :=
  ConfigureNetworkLink
    (ConfigureNetworkLink
      (ConfigureNetworkLink
        (ConfigureNetworkLink [] 0 1 1 1)
        1 2 2 1)
      2 3 2 1)
    3 4 2 1

/-! ## Concrete inputs used by the witnesses and counterexamples -/

/-- Concrete window for the C1 witness: two routers baselined at t = 3 s,
one of which changed at t = 5 s. -/
def C1w : NetworkConvergenceTracker :=
  { m_trackers :=
      [ { m_tracking := true, m_lastRoutingTable := [], m_lastChangeTime := 5 }
      , { m_tracking := true, m_lastRoutingTable := [], m_lastChangeTime := 3 } ]
  , m_startTime := 3 }

/-- The flow of the spec's scenario test: txPackets = 1000, rxPackets = 950,
lostPackets = 50, txBytes = 1024000, rxBytes = 972800, delaySum = 19 s. -/
def scenarioFlow : FlowStats :=
  { txPackets := 1000, rxPackets := 950, lostPackets := 50
  , txBytes := 1024000, rxBytes := 972800, delaySum := 19, jitterSum := 0 }

/-- A flow record whose counters are all zero (a matched flow before any
packet was sent). -/
def zeroFlow : FlowStats :=
  { txPackets := 0, rxPackets := 0, lostPackets := 0
  , txBytes := 0, rxBytes := 0, delaySum := 0, jitterSum := 0 }

/-- A flow record with exactly one received packet, the degenerate case of
the jitter divisor `rxPackets - 1`. -/
def singleRxFlow : FlowStats :=
  { txPackets := 3, rxPackets := 1, lostPackets := 2
  , txBytes := 3072, rxBytes := 1024, delaySum := 1, jitterSum := 0 }

/-- First concrete flow for the C8 witness (rxPackets > 1, jitter counted). -/
def C8f1 : FlowStats :=
  { txPackets := 2, rxPackets := 2, lostPackets := 0
  , txBytes := 100, rxBytes := 100, delaySum := 1, jitterSum := 1 }

/-- Second concrete flow for the C8 witness (rxPackets = 1, jitter
excluded from the aggregate). -/
def C8f2 : FlowStats :=
  { txPackets := 3, rxPackets := 1, lostPackets := 2
  , txBytes := 300, rxBytes := 100, delaySum := 2, jitterSum := 5 }

/-! ## Helper lemmas -/

/-- A tick fired on a stopped sampler returns the state unchanged. -/
lemma checkRoutingTable_of_not_tracking (s : RoutingTableTracker) (now : Time)
    (raw : RawTable) (h : s.m_tracking = false) :
    checkRoutingTable s now raw = s := by
  simp [checkRoutingTable, h]

/-- Any sequence of ticks fired on a stopped sampler leaves it unchanged. -/
lemma runTicks_of_not_tracking (s : RoutingTableTracker)
    (ticks : List (Time × RawTable)) (h : s.m_tracking = false) :
    runTicks s ticks = s := by
  induction ticks with
  | nil => rfl
  | cons p rest ih =>
      simp only [runTicks, List.foldl_cons] at *
      rw [checkRoutingTable_of_not_tracking s p.1 p.2 h, ih]

/-- Stopping a sampler changes only the tracking flag. -/
lemma trackerStop_fields (s : RoutingTableTracker) :
    (trackerStop s).m_tracking = false ∧
    (trackerStop s).m_lastRoutingTable = s.m_lastRoutingTable ∧
    (trackerStop s).m_lastChangeTime = s.m_lastChangeTime :=
  ⟨rfl, rfl, rfl⟩

/-- The max fold only reads last-change times, which `trackerStop`
preserves, so stopping all samplers does not move the fold. -/
lemma foldMaxChange_map_trackerStop (l : List RoutingTableTracker) :
    ∀ init : Time, foldMaxChange init (l.map trackerStop) = foldMaxChange init l := by
  induction l with
  | nil => intro init; rfl
  | cons tr rest ih =>
      intro init
      simp only [List.map_cons, foldMaxChange, List.foldl_cons]
      exact ih _

/-- Unfolding the max fold one tracker at a time. -/
lemma foldMaxChange_cons (init : Time) (tr : RoutingTableTracker)
    (rest : List RoutingTableTracker) :
    foldMaxChange init (tr :: rest) =
      foldMaxChange (if tr.m_lastChangeTime > init then tr.m_lastChangeTime else init) rest :=
  rfl

/-- The max fold never drops below its starting value. -/
lemma le_foldMaxChange_init (l : List RoutingTableTracker) :
    ∀ init : Time, init ≤ foldMaxChange init l := by
  induction l with
  | nil => intro init; exact le_refl _
  | cons tr rest ih =>
      intro init
      rw [foldMaxChange_cons]
      refine le_trans ?_ (ih _)
      split
      · exact le_of_lt (by assumption)
      · exact le_refl _

/-- The max fold dominates the last-change time of every tracker in the
list. -/
lemma le_foldMaxChange_of_mem (tr : RoutingTableTracker)
    (l : List RoutingTableTracker) :
    ∀ init : Time, tr ∈ l → tr.m_lastChangeTime ≤ foldMaxChange init l := by
  induction l with
  | nil => intro init h; cases h
  | cons hd rest ih =>
      intro init h
      rw [foldMaxChange_cons]
      rcases List.mem_cons.mp h with rfl | hmem
      · refine le_trans ?_ (le_foldMaxChange_init rest _)
        split
        · exact le_refl _
        · exact le_of_not_lt (by assumption)
      · exact ih _ hmem

/-- The max fold is either its starting value or the last-change time of
some tracker in the list. -/
lemma foldMaxChange_eq_init_or_mem (l : List RoutingTableTracker) :
    ∀ init : Time,
      foldMaxChange init l = init ∨
      ∃ tr ∈ l, foldMaxChange init l = tr.m_lastChangeTime := by
  induction l with
  | nil => intro init; exact Or.inl rfl
  | cons hd rest ih =>
      intro init
      rw [foldMaxChange_cons]
      rcases ih (if hd.m_lastChangeTime > init then hd.m_lastChangeTime else init) with
        h | ⟨tr, htr, heq⟩
      · rw [h]
        by_cases hc : hd.m_lastChangeTime > init
        · exact Or.inr ⟨hd, List.mem_cons_self _ _, by rw [if_pos hc]⟩
        · exact Or.inl (by rw [if_neg hc])
      · exact Or.inr ⟨tr, List.mem_cons_of_mem _ htr, heq⟩

/-! ## Claims -/

/-- C1: on a window whose samplers were all baselined at or after the start
instant (which is what `Start` establishes, final conjunct),
`GetNetworkConvergenceTime` is the maximum over the samplers of
`lastChangeTime` minus the window start: it is attained at some sampler,
dominates every sampler, is never negative, and is exactly 0 when no
sampler's table ever changed after the baseline (all last-change times
still equal the window start). -/
theorem C1_network_convergence_time (T : NetworkConvergenceTracker)
    (hne : T.m_trackers ≠ [])
    (hst : 0 ≤ T.m_startTime)
    (hge : ∀ tr ∈ T.m_trackers, T.m_startTime ≤ tr.m_lastChangeTime) :
    (∃ tr ∈ T.m_trackers,
        getNetworkConvergenceTime T = tr.m_lastChangeTime - T.m_startTime) ∧
    (∀ tr ∈ T.m_trackers,
        tr.m_lastChangeTime - T.m_startTime ≤ getNetworkConvergenceTime T) ∧
    0 ≤ getNetworkConvergenceTime T ∧
    ((∀ tr ∈ T.m_trackers, tr.m_lastChangeTime = T.m_startTime) →
        getNetworkConvergenceTime T = 0) ∧
    (∀ (now : Time) (raw : RawTable), (trackerStart now raw).m_lastChangeTime = now) := by
  obtain ⟨tr0, htr0⟩ := List.exists_mem_of_ne_nil _ hne
  have hM0 : (0 : ℚ) ≤ foldMaxChange 0 T.m_trackers := le_foldMaxChange_init _ 0
  have hMmem : ∀ tr ∈ T.m_trackers, tr.m_lastChangeTime ≤ foldMaxChange 0 T.m_trackers :=
    fun tr h => le_foldMaxChange_of_mem tr _ 0 h
  have hstM : T.m_startTime ≤ foldMaxChange 0 T.m_trackers :=
    le_trans (hge tr0 htr0) (hMmem tr0 htr0)
  have hex : ∃ tr ∈ T.m_trackers,
      getNetworkConvergenceTime T = tr.m_lastChangeTime - T.m_startTime := by
    rcases foldMaxChange_eq_init_or_mem T.m_trackers 0 with h | ⟨tr, htr, heq⟩
    · refine ⟨tr0, htr0, ?_⟩
      have h1 : tr0.m_lastChangeTime ≤ 0 := by rw [← h]; exact hMmem tr0 htr0
      have h2 : (0 : ℚ) ≤ tr0.m_lastChangeTime := le_trans hst (hge tr0 htr0)
      have h3 : tr0.m_lastChangeTime = 0 := le_antisymm h1 h2
      unfold getNetworkConvergenceTime
      rw [h, h3]
    · exact ⟨tr, htr, by unfold getNetworkConvergenceTime; rw [heq]⟩
  refine ⟨hex, ?_, ?_, ?_, ?_⟩
  · intro tr htr
    exact sub_le_sub_right (hMmem tr htr) _
  · unfold getNetworkConvergenceTime
    exact sub_nonneg.mpr hstM
  · intro hall
    obtain ⟨tr, htr, heq⟩ := hex
    rw [heq, hall tr htr, sub_self]
  · intro now raw; rfl

/-- C1 witness: the hypotheses hold for `C1w` and the theorem yields its
non-negativity there; the window evaluates to 2 seconds. -/
theorem C1_network_convergence_time_witness :
    (C1w.m_trackers ≠ [] ∧ 0 ≤ C1w.m_startTime ∧
      ∀ tr ∈ C1w.m_trackers, C1w.m_startTime ≤ tr.m_lastChangeTime) ∧
    0 ≤ getNetworkConvergenceTime C1w ∧
    getNetworkConvergenceTime C1w = 2 :=
  ⟨⟨by decide, by decide, by decide⟩,
    (C1_network_convergence_time C1w (by decide) (by decide) (by decide)).2.2.1,
    by norm_num [getNetworkConvergenceTime, foldMaxChange, C1w, List.foldl]⟩

/-- C7: once a sampler is stopped, every subsequently fired tick — and any
whole sequence of them — is a no-op that leaves the stored table and
last-change time unchanged (and stopping itself touches neither). -/
theorem C7_tick_after_stop_noop (s : RoutingTableTracker) (now : Time)
    (raw : RawTable) (ticks : List (Time × RawTable)) :
    checkRoutingTable (trackerStop s) now raw = trackerStop s ∧
    runTicks (trackerStop s) ticks = trackerStop s ∧
    (trackerStop s).m_lastRoutingTable = s.m_lastRoutingTable ∧
    (trackerStop s).m_lastChangeTime = s.m_lastChangeTime :=
  ⟨checkRoutingTable_of_not_tracking _ _ _ rfl,
    runTicks_of_not_tracking _ _ rfl, rfl, rfl⟩

/-- C10: `NetworkConvergenceTracker::Stop` only clears each sampler's
tracking flag: the start time, every sampler's last-change time and stored
table are unchanged, and `GetNetworkConvergenceTime` returns the same value
before and after. -/
theorem C10_stop_preserves_convergence_time (T : NetworkConvergenceTracker) :
    (networkStop T).m_startTime = T.m_startTime ∧
    (networkStop T).m_trackers.map RoutingTableTracker.m_lastChangeTime =
      T.m_trackers.map RoutingTableTracker.m_lastChangeTime ∧
    (networkStop T).m_trackers.map RoutingTableTracker.m_lastRoutingTable =
      T.m_trackers.map RoutingTableTracker.m_lastRoutingTable ∧
    (∀ s ∈ (networkStop T).m_trackers, s.m_tracking = false) ∧
    getNetworkConvergenceTime (networkStop T) = getNetworkConvergenceTime T := by
  refine ⟨rfl, ?_, ?_, ?_, ?_⟩
  · rw [show (networkStop T).m_trackers = T.m_trackers.map trackerStop from rfl,
      List.map_map]
    rfl
  · rw [show (networkStop T).m_trackers = T.m_trackers.map trackerStop from rfl,
      List.map_map]
    rfl
  · intro s hs
    rw [show (networkStop T).m_trackers = T.m_trackers.map trackerStop from rfl] at hs
    obtain ⟨t, _, rfl⟩ := List.mem_map.mp hs
    rfl
  · unfold getNetworkConvergenceTime
    rw [show (networkStop T).m_trackers = T.m_trackers.map trackerStop from rfl,
      foldMaxChange_map_trackerStop, show (networkStop T).m_startTime = T.m_startTime from rfl]

/-- Peeling one tick off a tick sequence. -/
lemma runTicks_cons (s : RoutingTableTracker) (p : Time × RawTable)
    (ticks : List (Time × RawTable)) :
    runTicks s (p :: ticks) = runTicks (checkRoutingTable s p.1 p.2) ticks :=
  rfl

/-- A tick either keeps the last-change time or sets it to the tick time. -/
lemma checkRoutingTable_lct_cases (s : RoutingTableTracker) (now : Time)
    (raw : RawTable) :
    (checkRoutingTable s now raw).m_lastChangeTime = s.m_lastChangeTime ∨
    (checkRoutingTable s now raw).m_lastChangeTime = now := by
  unfold checkRoutingTable
  split
  · exact Or.inl rfl
  · split
    · exact Or.inr rfl
    · exact Or.inl rfl

/-- A tick fired at a time not earlier than the current last-change time can
only move the last-change time forward. -/
lemma lct_le_checkRoutingTable (s : RoutingTableTracker) (now : Time)
    (raw : RawTable) (h : s.m_lastChangeTime ≤ now) :
    s.m_lastChangeTime ≤ (checkRoutingTable s now raw).m_lastChangeTime := by
  rcases checkRoutingTable_lct_cases s now raw with hc | hc <;> rw [hc]
  exact h

/-- After such a tick the last-change time is at most the tick time. -/
lemma checkRoutingTable_lct_le (s : RoutingTableTracker) (now : Time)
    (raw : RawTable) (h : s.m_lastChangeTime ≤ now) :
    (checkRoutingTable s now raw).m_lastChangeTime ≤ now := by
  rcases checkRoutingTable_lct_cases s now raw with hc | hc <;> rw [hc]
  exact h

/-- A non-decreasing schedule of tick times stays non-decreasing after the
first tick fires. -/
lemma chain_through_check (s : RoutingTableTracker) (now : Time)
    (raw : RawTable) (l : List Time)
    (hch : List.Chain' (· ≤ ·) (s.m_lastChangeTime :: now :: l)) :
    List.Chain' (· ≤ ·) ((checkRoutingTable s now raw).m_lastChangeTime :: l) := by
  obtain ⟨h1, hch2⟩ := List.chain'_cons.mp hch
  have hub := checkRoutingTable_lct_le s now raw h1
  cases l with
  | nil => simp
  | cons t rest =>
      obtain ⟨h2, hch3⟩ := List.chain'_cons.mp hch2
      exact List.chain'_cons.mpr ⟨le_trans hub h2, hch3⟩

/-- Over a non-decreasing schedule of ticks, the last-change time never
drops below its starting value. -/
lemma lct_le_runTicks_of_chain (ticks : List (Time × RawTable)) :
    ∀ s : RoutingTableTracker,
      List.Chain' (· ≤ ·) (s.m_lastChangeTime :: ticks.map Prod.fst) →
      s.m_lastChangeTime ≤ (runTicks s ticks).m_lastChangeTime := by
  induction ticks with
  | nil => intro s _; exact le_refl _
  | cons p rest ih =>
      intro s hch
      rw [List.map_cons] at hch
      obtain ⟨h1, _⟩ := List.chain'_cons.mp hch
      have hle := lct_le_checkRoutingTable s p.1 p.2 h1
      have hch3 := chain_through_check s p.1 p.2 (rest.map Prod.fst) hch
      rw [runTicks_cons]
      exact le_trans hle (ih _ hch3)

/-- Ticks fired on the unchanged baseline text (or on a stopped sampler)
leave the sampler completely unchanged. -/
lemma runTicks_const_of_baseline (raw : RawTable) (ts : List Time) :
    ∀ s : RoutingTableTracker,
      s.m_lastRoutingTable = GetRoutingTable raw ∨ s.m_tracking = false →
      runTicks s (ts.map (fun τ => (τ, raw))) = s := by
  induction ts with
  | nil => intro s _; rfl
  | cons t rest ih =>
      intro s h
      rw [List.map_cons, runTicks_cons]
      have hc : checkRoutingTable s t raw = s := by
        rcases h with h | h
        · simp [checkRoutingTable, h]
        · exact checkRoutingTable_of_not_tracking _ _ _ h
      rw [hc]
      exact ih s h

/-- C3: for a started sampler a tick is exactly "update the stored table
and the last-change time iff the fresh capture differs" (first conjunct);
over any schedule of ticks fired at non-decreasing times the last-change
time is monotonically non-decreasing (second conjunct); and a run of
identical consecutive samples collapses to its first tick, so the
last-change time never advances past it — in particular a run identical to
the stored baseline changes nothing (third conjunct). -/
theorem C3_sampler_tick_invariants :
    (∀ (s : RoutingTableTracker) (now : Time) (raw : RawTable),
        s.m_tracking = true →
        checkRoutingTable s now raw =
          if GetRoutingTable raw = s.m_lastRoutingTable then s
          else { s with m_lastRoutingTable := GetRoutingTable raw
                      , m_lastChangeTime := now }) ∧
    (∀ (s : RoutingTableTracker) (l1 l2 : List (Time × RawTable)),
        List.Chain' (· ≤ ·) (s.m_lastChangeTime :: (l1 ++ l2).map Prod.fst) →
        (runTicks s l1).m_lastChangeTime ≤ (runTicks s (l1 ++ l2)).m_lastChangeTime) ∧
    (∀ (s : RoutingTableTracker) (raw : RawTable) (t : Time) (ts : List Time),
        runTicks s ((t :: ts).map (fun τ => (τ, raw))) = checkRoutingTable s t raw) := by
  refine ⟨?_, ?_, ?_⟩
  · intro s now raw h
    simp only [checkRoutingTable, h]
    simp [ite_not]
  · intro s l1
    induction l1 generalizing s with
    | nil =>
        intro l2 hch
        rw [List.nil_append] at hch ⊢
        exact lct_le_runTicks_of_chain l2 s hch
    | cons p rest ih =>
        intro l2 hch
        rw [List.cons_append, List.map_cons] at hch
        have hch3 := chain_through_check s p.1 p.2 ((rest ++ l2).map Prod.fst) hch
        rw [List.cons_append, runTicks_cons, runTicks_cons]
        exact ih _ l2 hch3
  · intro s raw t ts
    rw [List.map_cons, runTicks_cons]
    apply runTicks_const_of_baseline
    by_cases htr : s.m_tracking = false
    · right
      rw [checkRoutingTable_of_not_tracking _ _ _ htr]
      exact htr
    · left
      unfold checkRoutingTable
      rw [if_neg htr]
      split
      · rfl
      · exact (not_ne_iff.mp (by assumption)).symm

/-- C3 witness: a started sampler holding table "a" ticks at t = 2 with a
fresh print whose first line is "x" and whose table body is "b": it updates
to that body and records t = 2; and monotonicity holds on the concrete
schedule 1, 2 started from last-change time 0. -/
theorem C3_sampler_tick_invariants_witness :
    checkRoutingTable
        { m_tracking := true, m_lastRoutingTable := ['a'], m_lastChangeTime := 0 }
        2 ['x', '\n', 'b'] =
      { m_tracking := true, m_lastRoutingTable := ['b'], m_lastChangeTime := 2 } ∧
    (runTicks
        { m_tracking := true, m_lastRoutingTable := ['a'], m_lastChangeTime := 0 }
        [(1, ['x', '\n', 'b'])]).m_lastChangeTime ≤
      (runTicks
        { m_tracking := true, m_lastRoutingTable := ['a'], m_lastChangeTime := 0 }
        ([(1, ['x', '\n', 'b'])] ++ [(2, ['y', '\n', 'c'])])).m_lastChangeTime ∧
    runTicks
        { m_tracking := true, m_lastRoutingTable := ['a'], m_lastChangeTime := 0 }
        ([(5 : Time), 6, 7].map (fun τ => (τ, ['x', '\n', 'b']))) =
      checkRoutingTable
        { m_tracking := true, m_lastRoutingTable := ['a'], m_lastChangeTime := 0 }
        5 ['x', '\n', 'b'] := by
  refine ⟨?_, ?_, ?_⟩
  · rw [C3_sampler_tick_invariants.1 _ 2 ['x', '\n', 'b'] rfl]
    decide
  · exact C3_sampler_tick_invariants.2.1 _ [(1, ['x', '\n', 'b'])]
      [(2, ['y', '\n', 'c'])] (by norm_num [List.chain'_cons])
  · exact C3_sampler_tick_invariants.2.2 _ ['x', '\n', 'b'] 5 [6, 7]

/-- Stripping the first line of a text built as first line, newline, body
yields exactly the body. -/
lemma GetRoutingTable_append_newline (l rest : List Char) (h : '\n' ∉ l) :
    GetRoutingTable (l ++ '\n' :: rest) = rest := by
  have hfind : findAfterNewline (l ++ '\n' :: rest) = some rest := by
    induction l with
    | nil => simp [findAfterNewline]
    | cons c cs ih =>
        have hc : c ≠ '\n' := fun hh => h (hh ▸ List.mem_cons_self c cs)
        rw [List.cons_append]
        simp only [findAfterNewline, if_neg hc]
        exact ih (fun hm => h (List.mem_cons_of_mem _ hm))
  simp [GetRoutingTable, hfind]

/-- C9: `GetRoutingTable` (the capture step) strips the volatile first line
before the text is stored or compared, so two prints that differ only in
that first line strip to the same table, and a tick whose fresh print
differs from the baseline print only in the first line registers no change
at all. -/
theorem C9_capture_strips_first_line (l1 l2 rest : List Char)
    (h1 : '\n' ∉ l1) (h2 : '\n' ∉ l2) :
    GetRoutingTable (l1 ++ '\n' :: rest) = GetRoutingTable (l2 ++ '\n' :: rest) ∧
    (∀ t0 now : Time,
        checkRoutingTable (trackerStart t0 (l1 ++ '\n' :: rest)) now
            (l2 ++ '\n' :: rest) =
          trackerStart t0 (l1 ++ '\n' :: rest)) := by
  have e1 := GetRoutingTable_append_newline l1 rest h1
  have e2 := GetRoutingTable_append_newline l2 rest h2
  refine ⟨by rw [e1, e2], ?_⟩
  intro t0 now
  simp [checkRoutingTable, trackerStart, e1, e2]

/-- C9 witness: volatile first lines "a" and "b" over the same body "r". -/
theorem C9_capture_strips_first_line_witness :
    GetRoutingTable (['a'] ++ '\n' :: ['r']) = GetRoutingTable (['b'] ++ '\n' :: ['r']) ∧
    checkRoutingTable (trackerStart 0 (['a'] ++ '\n' :: ['r'])) 1
        (['b'] ++ '\n' :: ['r']) =
      trackerStart 0 (['a'] ++ '\n' :: ['r']) :=
  ⟨(C9_capture_strips_first_line ['a'] ['b'] ['r'] (by decide) (by decide)).1,
   (C9_capture_strips_first_line ['a'] ['b'] ['r'] (by decide) (by decide)).2 0 1⟩

/-- C5: for a flow with txPackets > 0 and rxPackets > 1 the guarded
ternaries of topologia1.cc's `PrintFlowStats` take their division branch,
so every reported metric equals its stated quotient; the throughput divisor
is the fixed `SIMULATION_TIME` of 300 s, so the metrics do not depend on
the virtual time at which the report fires (first and last conjuncts, the
last covering topologia3.cc's report as well); and on the spec's scenario
flow the metrics evaluate to 0.05, 1024 bytes, 972800 * 8 / 300 / 1e6 Mbps
and 0.02 s. -/
theorem C5_per_flow_metric_formulas (now : Time) (f : FlowStats)
    (htx : 0 < f.txPackets) (hrx : 1 < f.rxPackets) :
    printFlowStats1 now f = printFlowStats1 0 f ∧
    (printFlowStats1 now f).lossRatio = (f.lostPackets : ℚ) / f.txPackets ∧
    (printFlowStats1 now f).avgPacketSize = (f.txBytes : ℚ) / f.txPackets ∧
    (printFlowStats1 now f).avgDelay = f.delaySum / f.rxPackets ∧
    (printFlowStats1 now f).avgJitter = f.jitterSum / ((f.rxPackets : ℚ) - 1) ∧
    (printFlowStats1 now f).throughputMbps = (f.rxBytes : ℚ) * 8 / 300 / 1000000 ∧
    (printFlowStats1 now scenarioFlow).lossRatio = 1 / 20 ∧
    (printFlowStats1 now scenarioFlow).avgPacketSize = 1024 ∧
    (printFlowStats1 now scenarioFlow).throughputMbps = 972800 * 8 / 300 / 1000000 ∧
    (printFlowStats1 now scenarioFlow).avgDelay = 1 / 50 ∧
    (∀ fs : List FlowStats, printFlowStats3 now fs = printFlowStats3 0 fs) := by
  have htx' : f.txPackets ≠ 0 := Nat.pos_iff_ne_zero.mp htx
  have hrx' : f.rxPackets ≠ 0 := by omega
  refine ⟨rfl, ?_, ?_, ?_, ?_, ?_, ?_, ?_, ?_, ?_, fun fs => rfl⟩
  · simp [printFlowStats1, htx']
  · simp [printFlowStats1, htx']
  · simp [printFlowStats1, hrx']
  · simp [printFlowStats1, hrx]
  · norm_num [printFlowStats1, SIMULATION_TIME, div_div]
  · norm_num [printFlowStats1, scenarioFlow]
  · norm_num [printFlowStats1, scenarioFlow]
  · norm_num [printFlowStats1, scenarioFlow, SIMULATION_TIME, div_div]
  · norm_num [printFlowStats1, scenarioFlow]

/-- C5 witness: the scenario flow satisfies both hypotheses and the theorem
yields its loss-ratio and delay quotients there. -/
theorem C5_per_flow_metric_formulas_witness :
    (0 < scenarioFlow.txPackets ∧ 1 < scenarioFlow.rxPackets) ∧
    (printFlowStats1 300 scenarioFlow).lossRatio =
      (scenarioFlow.lostPackets : ℚ) / scenarioFlow.txPackets ∧
    (printFlowStats1 300 scenarioFlow).avgDelay =
      scenarioFlow.delaySum / scenarioFlow.rxPackets :=
  ⟨⟨by norm_num [scenarioFlow], by norm_num [scenarioFlow]⟩,
   (C5_per_flow_metric_formulas 300 scenarioFlow (by norm_num [scenarioFlow])
      (by norm_num [scenarioFlow])).2.1,
   (C5_per_flow_metric_formulas 300 scenarioFlow (by norm_num [scenarioFlow])
      (by norm_num [scenarioFlow])).2.2.2.1⟩

/-- C6: registering a link stores the interface of each endpoint under both
ordered pairs, so a single registration makes the lookup resolvable in both
directions: (A,B) yields A's interface and (B,A) yields B's interface. -/
theorem C6_symmetric_lookup (m : InterfaceMap) (a b ia ib : Nat) (hab : a ≠ b) :
    mapFind (ConfigureNetworkLink m a b ia ib) (a, b) = some ia ∧
    mapFind (ConfigureNetworkLink m a b ia ib) (b, a) = some ib := by
  have hne : ((b, a) : Nat × Nat) ≠ (a, b) := fun h => hab (congrArg Prod.snd h)
  constructor
  · simp [ConfigureNetworkLink, mapInsert, mapFind, hne]
  · simp [ConfigureNetworkLink, mapInsert, mapFind]

/-- C6 witness: the spec's example, registering (A,B) with ifaceA = 3 and
ifaceB = 1 on the empty registry. -/
theorem C6_symmetric_lookup_witness :
    mapFind (ConfigureNetworkLink [] 0 1 3 1) (0, 1) = some 3 ∧
    mapFind (ConfigureNetworkLink [] 0 1 3 1) (1, 0) = some 1 :=
  C6_symmetric_lookup [] 0 1 3 1 (by decide)

/-- C2: evaluation showing the divergence between the two per-flow
reporters. topologia1.cc's guarded metrics report 0 on every degenerate
counter, as the claim states; topologia2.cc's `PrintFlowStats` divides the
very same counters unguarded, so on a flow with txPackets = 0 its loss
ratio, average packet size and average delay are 0/0 (NaN, modelled as
`none`), and on a flow with rxPackets = 1 its jitter divides by
`rxPackets - 1 = 0` (modelled as `none`) instead of reporting 0. -/
theorem C2_topologia2_unguarded_divisions :
    (printFlowStats2 zeroFlow).lossRatio = none ∧
    (printFlowStats2 zeroFlow).avgPacketSize = none ∧
    (printFlowStats2 zeroFlow).avgDelay = none ∧
    (printFlowStats2 singleRxFlow).avgJitter = none ∧
    (printFlowStats1 0 zeroFlow).lossRatio = 0 ∧
    (printFlowStats1 0 zeroFlow).avgPacketSize = 0 ∧
    (printFlowStats1 0 zeroFlow).avgDelay = 0 ∧
    (printFlowStats1 0 singleRxFlow).avgJitter = 0 := by
  norm_num [printFlowStats1, printFlowStats2, qdiv, UINT32_MOD, zeroFlow, singleRxFlow]

/-- The aggregation loop computes, in each accumulator field, the starting
value plus the componentwise sum over the flows; only flows with
rxPackets > 1 contribute their jitterSum. -/
lemma foldl_accumulateFlow (fs : List FlowStats) :
    ∀ a : AggregateTotals,
      fs.foldl accumulateFlow a =
        { totalTxPackets := a.totalTxPackets + (fs.map FlowStats.txPackets).sum
        , totalRxPackets := a.totalRxPackets + (fs.map FlowStats.rxPackets).sum
        , totalLostPackets := a.totalLostPackets + (fs.map FlowStats.lostPackets).sum
        , totalTxBytes := a.totalTxBytes + (fs.map FlowStats.txBytes).sum
        , totalRxBytes := a.totalRxBytes + (fs.map FlowStats.rxBytes).sum
        , totalDelaySum := a.totalDelaySum + (fs.map FlowStats.delaySum).sum
        , totalJitterSum := a.totalJitterSum +
            (fs.map (fun f => if 1 < f.rxPackets then f.jitterSum else 0)).sum
        , totalFlows := a.totalFlows + fs.length } := by
  induction fs with
  | nil => intro a; simp
  | cons f rest ih =>
      intro a
      rw [List.foldl_cons, ih]
      simp only [accumulateFlow, List.map_cons, List.sum_cons, List.length_cons,
        AggregateTotals.mk.injEq]
      refine ⟨by ring, by ring, by ring, by ring, by ring, by ring, by ring, by ring⟩

/-- C8: topologia3.cc's aggregate report first sums every counter over all
flows — including a flow's jitterSum exactly when that flow has
rxPackets > 1 — and then applies the same guarded metric formulas as the
per-flow reporter to the totals. -/
theorem C8_aggregate_sums_then_formulas (fs : List FlowStats) (hne : fs ≠ []) :
    aggregateStats fs =
      { totalTxPackets := (fs.map FlowStats.txPackets).sum
      , totalRxPackets := (fs.map FlowStats.rxPackets).sum
      , totalLostPackets := (fs.map FlowStats.lostPackets).sum
      , totalTxBytes := (fs.map FlowStats.txBytes).sum
      , totalRxBytes := (fs.map FlowStats.rxBytes).sum
      , totalDelaySum := (fs.map FlowStats.delaySum).sum
      , totalJitterSum :=
          (fs.map (fun f => if 1 < f.rxPackets then f.jitterSum else 0)).sum
      , totalFlows := fs.length } ∧
    printFlowStats3 0 fs =
      some (printFlowStats1 0
        { txPackets := (fs.map FlowStats.txPackets).sum
        , rxPackets := (fs.map FlowStats.rxPackets).sum
        , lostPackets := (fs.map FlowStats.lostPackets).sum
        , txBytes := (fs.map FlowStats.txBytes).sum
        , rxBytes := (fs.map FlowStats.rxBytes).sum
        , delaySum := (fs.map FlowStats.delaySum).sum
        , jitterSum :=
            (fs.map (fun f => if 1 < f.rxPackets then f.jitterSum else 0)).sum }) := by
  have htot := foldl_accumulateFlow fs ⟨0, 0, 0, 0, 0, 0, 0, 0⟩
  simp only [zero_add, Nat.zero_add] at htot
  refine ⟨htot, ?_⟩
  have hlen : 0 < fs.length := List.length_pos.mpr hne
  simp only [printFlowStats3, aggregateStats, htot]
  rw [if_pos hlen]
  rfl

/-- C8 witness: two concrete flows, the second with rxPackets = 1 so its
jitterSum of 5 is excluded; the aggregate metrics equal the per-flow
formulas applied to the summed record (2+3, 2+1, 0+2, 100+300, 100+100,
1+2, jitter 1 only). -/
theorem C8_aggregate_sums_then_formulas_witness :
    ([C8f1, C8f2] ≠ ([] : List FlowStats)) ∧
    printFlowStats3 0 [C8f1, C8f2] =
      some (printFlowStats1 0
        { txPackets := 5, rxPackets := 3, lostPackets := 2
        , txBytes := 400, rxBytes := 200, delaySum := 3, jitterSum := 1 }) := by
  refine ⟨by decide, ?_⟩
  have h := (C8_aggregate_sums_then_formulas [C8f1, C8f2] (by decide)).2
  rw [h]
  norm_num [C8f1, C8f2]

/-- A lookup over a map none of whose entries carries the requested key
returns `none` (the silent `std::map` miss). -/
lemma mapFind_eq_none (m : InterfaceMap) (p : Nat × Nat) :
    (∀ e ∈ m, e.1 ≠ p) → mapFind m p = none := by
  induction m with
  | nil => intro _; rfl
  | cons e rest ih =>
      intro hp
      have h1 : e.1 ≠ p := hp e (List.mem_cons_self _ _)
      simp only [mapFind, if_neg h1]
      exact ih (fun q hq => hp q (List.mem_cons_of_mem _ hq))

/-- C4 counterexample: the pair (T = 0, Router2 = 2) is never registered in
topologia1's `nodeInterfaceMap`, yet firing the teardown on the devices of
those nodes does not report any fatal error — the code has no error path —
it silently sets the two endpoint interfaces down (and leaves every other
interface untouched), and the registry lookup silently yields no entry. -/
theorem C4_counterexample_silent_teardown :
    mapFind topologia1NodeInterfaceMap (0, 2) = none ∧
    TearDownLink (fun _ => true) ⟨0, 1⟩ ⟨2, 1⟩ (0, 1) = false ∧
    TearDownLink (fun _ => true) ⟨0, 1⟩ ⟨2, 1⟩ (2, 1) = false ∧
    TearDownLink (fun _ => true) ⟨0, 1⟩ ⟨2, 1⟩ (1, 1) = true ∧
    UpLink (fun _ => false) ⟨0, 1⟩ ⟨2, 1⟩ (0, 1) = true :=
  ⟨by decide, by decide, by decide, by decide, by decide⟩

/-- C4 as amended: `TearDownLink` / `UpLink` act directly on the supplied
devices — they never consult `nodeInterfaceMap` and have no failure branch —
so invoking them on a pair that was never registered silently toggles
exactly the two endpoint interfaces; the registry lookup of such a pair
merely returns no entry, and no fatal error is raised anywhere. -/
theorem C4_unregistered_pair_is_silent (st : IfaceState) (d1 d2 : NetDeviceM)
    (m : InterfaceMap) (p : Nat × Nat) (hp : ∀ e ∈ m, e.1 ≠ p) :
    mapFind m p = none ∧
    TearDownLink st d1 d2 (d1.node, d1.iface) = false ∧
    TearDownLink st d1 d2 (d2.node, d2.iface) = false ∧
    (∀ k, k ≠ (d1.node, d1.iface) → k ≠ (d2.node, d2.iface) →
        TearDownLink st d1 d2 k = st k) ∧
    UpLink st d1 d2 (d1.node, d1.iface) = true ∧
    UpLink st d1 d2 (d2.node, d2.iface) = true ∧
    (∀ k, k ≠ (d1.node, d1.iface) → k ≠ (d2.node, d2.iface) →
        UpLink st d1 d2 k = st k) := by
  refine ⟨mapFind_eq_none m p hp, ?_, ?_, ?_, ?_, ?_, ?_⟩
  · simp [TearDownLink, setIface]
  · simp [TearDownLink, setIface]
  · intro k h1 h2
    simp [TearDownLink, setIface, h1, h2]
  · simp [UpLink, setIface]
  · simp [UpLink, setIface]
  · intro k h1 h2
    simp [UpLink, setIface, h1, h2]

/-- C4 amended witness: the unregistered pair (0, 2) against topologia1's
registry; the teardown fires silently and interface (3, 2) is untouched. -/
theorem C4_unregistered_pair_is_silent_witness :
    (∀ e ∈ topologia1NodeInterfaceMap, e.1 ≠ ((0, 2) : Nat × Nat)) ∧
    mapFind topologia1NodeInterfaceMap (0, 2) = none ∧
    TearDownLink (fun _ => true) ⟨0, 1⟩ ⟨2, 1⟩ (3, 2) = true :=
  ⟨by decide,
   (C4_unregistered_pair_is_silent (fun _ => true) ⟨0, 1⟩ ⟨2, 1⟩
      topologia1NodeInterfaceMap (0, 2) (by decide)).1,
   (C4_unregistered_pair_is_silent (fun _ => true) ⟨0, 1⟩ ⟨2, 1⟩
      topologia1NodeInterfaceMap (0, 2) (by decide)).2.2.2.1 (3, 2)
      (by decide) (by decide)⟩

/-- `NetworkConvergenceTracker::Start` establishes the hypotheses of the
convergence-time theorem: it records the start instant and baselines every
sampler's last-change time to that same instant. -/
lemma networkStart_baselines (now : Time) (raws : List RawTable) :
    (networkStart now raws).m_startTime = now ∧
    (∀ tr ∈ (networkStart now raws).m_trackers, tr.m_lastChangeTime = now) ∧
    ((networkStart now raws).m_trackers = [] ↔ raws = []) := by
  refine ⟨rfl, ?_, ?_⟩
  · intro tr htr
    obtain ⟨raw, _, rfl⟩ := List.mem_map.mp htr
    rfl
  · simp [networkStart]

/-- Ticks fired at or after the window start keep every sampler's
last-change time at or after the window start, so the hypotheses of the
convergence-time theorem are preserved along any run. -/
lemma start_le_lct_check (s : RoutingTableTracker) (now : Time) (raw : RawTable)
    (c : Time) (h1 : c ≤ s.m_lastChangeTime) (h2 : c ≤ now) :
    c ≤ (checkRoutingTable s now raw).m_lastChangeTime := by
  rcases checkRoutingTable_lct_cases s now raw with hc | hc <;> rw [hc]
  · exact h1
  · exact h2
